import Mathlib

/-
Verification of bravado/mapping/operation.py (Saritasa/bravado).

The Python module is shallowly embedded below: the JSON-compatible spec tree
becomes the inductive `Value`, Python dicts become association lists, raised
exceptions become the `Err` sum carried by `Except`, and each function of the
source file becomes an executable Lean definition of the same name.  Parts of
the repository that operation.py imports but that are not part of the source
under verification (bravado/mapping/param.py and bravado/mapping/unmarshal.py)
are modelled from the design document and are marked as such in doc comments.
-/

set_option maxHeartbeats 1000000

namespace Bravado

/-- JSON-compatible values: the reference-resolved spec tree, request and
response bodies, and call-time parameter values are all nested data of this
shape ("Spec Node" in the design document).  Python `None` / JSON `null` is
`Value.null`. -/
inductive Value where
  | null : Value
  | bool : Bool → Value
  | num : Int → Value
  | str : String → Value
  | arr : List Value → Value
  | obj : List (String × Value) → Value
deriving Repr

/-- Association-list lookup; models Python `dict.get(key)` (returns `None`,
here `Option.none`, when the key is absent). -/
def assocLookup {α : Type} : List (String × α) → String → Option α
  | [], _ => none
  | (k, v) :: rest, key => if k = key then some v else assocLookup rest key

/-- Keys of an association list, in insertion order (models `dict.keys()`). -/
def assocKeys {α : Type} (l : List (String × α)) : List String :=
  l.map Prod.fst

/-- Removes the first entry with the given key; the mutation performed by
Python's `dict.pop(key, None)` when the key is present. -/
def assocErase {α : Type} : List (String × α) → String → List (String × α)
  | [], _ => []
  | (k, v) :: rest, key => if k = key then rest else (k, v) :: assocErase rest key

/-- Models Python `dict.pop(key, None)`: returns the removed value (or `none`)
together with the dictionary after the call. -/
def assocPop {α : Type} (l : List (String × α)) (key : String) :
    Option α × List (String × α) :=
  (assocLookup l key, assocErase l key)

/-- Models Python `dict[key] = v`: replaces the first entry with the given key
in place, or appends a new entry. -/
def assocSet {α : Type} : List (String × α) → String → α → List (String × α)
  | [], key, v => [(key, v)]
  | (k, w) :: rest, key, v =>
    if k = key then (key, v) :: rest else (k, w) :: assocSet rest key v

/-- Field lookup on a `Value`; models Python `d.get(key)` on a dict-shaped
node (`none` both when the node is not a mapping and when the key is absent). -/
def Value.lookup : Value → String → Option Value
  | .obj fields, key => assocLookup fields key
  | _, _ => none

/-- Models Python `d.get(key, default)` where a stored JSON `null` is Python
`None`: a present key returns its stored value even when that value is null. -/
def Value.pyGet (v : Value) (key : String) (dflt : Value) : Value :=
  match v.lookup key with
  | some w => w
  | none => dflt

/-- The exception classes that the embedded code can raise. -/
inductive Err where
  | typeError (msg : String)
  | keyError (key : String)
  | swaggerError (msg : String)
  | notImplementedError (msg : String)
  | attributeError (msg : String)
  | specValidationError (msg : String)
  | schemaUnmarshalError (msg : String)
deriving DecidableEq, Repr

/-- Parameter locations recognized by the design document (section 3):
`path`, `query`, `header`, `body`, `formData`. -/
inductive Location where
  | path | query | header | body | formData
deriving DecidableEq, Repr

/-- Modelled from the spec: bravado/mapping/param.py (class `Param`) is not
under src/.  Per section 4.1 a Parameter Model is built from a parameter spec
subtree and exposes its name, location, required flag and default.  The raw
subtree is kept so that the declaration a parameter was built from remains
observable. -/
structure Param where
  name : String
  location : Location
  pspec : Value
deriving Repr

/-- Modelled from the spec: `required` is the boolean the parameter spec
declares, false when absent (section 3: "required: bool"). -/
def Param.required (p : Param) : Bool :=
  match p.pspec.lookup "required" with
  | some (.bool b) => b
  | _ => false

/-- Modelled from the spec: "has_default() (true iff the spec subtree declares
a default value)" (section 4.1). -/
def Param.has_default (p : Param) : Bool :=
  (p.pspec.lookup "default").isSome

/-- Modelled from the spec: `default_value()` (section 4.1). -/
def Param.default_value (p : Param) : Value :=
  match p.pspec.lookup "default" with
  | some v => v
  | none => .null

/-- Modelled from the spec: constructing a Parameter Model from a parameter
spec subtree; a malformed subtree (missing `name` or unrecognized location)
fails with a SpecValidationError at construction time (section 4.1). -/
def Param.from_spec (pspec : Value) : Except Err Param := do
  let name ← match pspec.lookup "name" with
    | some (.str s) => Except.ok s
    | _ => Except.error (.specValidationError "parameter spec missing name")
  let loc ← match pspec.lookup "in" with
    | some (.str "path") => Except.ok Location.path
    | some (.str "query") => Except.ok Location.query
    | some (.str "header") => Except.ok Location.header
    | some (.str "body") => Except.ok Location.body
    | some (.str "formData") => Except.ok Location.formData
    | _ => Except.error (.specValidationError "unrecognized parameter location")
  Except.ok ⟨name, loc, pspec⟩

/-- The enclosing swagger spec (`Spec` in bravado): the reference-resolved
spec dict plus the api url used to build request urls. -/
structure SwaggerSpec where
  spec_dict : Value
  api_url : String
deriving Repr

/-- operation.py lines 13-34: an `Operation` holds the enclosing spec, the
path template, the http method, the operation spec subtree, and the mapping
(param name → Param) that `build_params` fills in. -/
structure Operation where
  swagger_spec : SwaggerSpec
  path_name : String
  http_method : String
  op_spec : Value
  params : List (String × Param) := []
deriving Repr

/-- Reads the `parameters` list of a spec subtree; Python
`d.get('parameters', [])` (operation.py lines 58 and 60). -/
def paramSpecsOf (v : Value) : List Value :=
  match v.lookup "parameters" with
  | some (.arr xs) => xs
  | _ => []

/-- operation.py lines 51-65 (`Operation.build_params`): rebuilds
`self.params` from the operation-level `parameters` list concatenated with
the path-level `parameters` list, inserting each built `Param` keyed by its
name into a dict (later insertions overwrite earlier ones).  The subscript
`self.swagger_spec.spec_dict['paths'][self.path_name]` raises `KeyError` when
either key is absent. -/
def Operation.build_params (op : Operation) : Except Err Operation :=
  let op_param_specs := paramSpecsOf op.op_spec
  match op.swagger_spec.spec_dict.lookup "paths" with
  | none => Except.error (.keyError "paths")
  | some paths =>
    match paths.lookup op.path_name with
    | none => Except.error (.keyError op.path_name)
    | some path_specs =>
      let path_param_specs := paramSpecsOf path_specs
      let param_specs := op_param_specs ++ path_param_specs
      (param_specs.foldlM
        (fun acc pspec => do
          let param ← Param.from_spec pspec
          Except.ok (assocSet acc param.name param))
        ([] : List (String × Param))).map
        (fun params => { op with params := params })

/-- The transient request value built per invocation ("Request" in section 3 of
the design document): method, url, query map, headers, form data and optional
body. -/
structure Request where
  method : String
  url : String
  query : List (String × Value)
  headers : List (String × Value)
  formData : List (String × Value)
  body : Option Value
deriving Repr

/-- Tests whether the first list starts with the second one. -/
def beginsWith : List Char → List Char → Bool
  | _, [] => true
  | [], _ :: _ => false
  | c :: cs, d :: ds => c = d && beginsWith cs ds

/-- Fuel-bounded core of Python `str.replace`: scans left to right and
replaces each non-overlapping occurrence of `old` by `new`.  The fuel is the
length of the scanned list, which suffices whenever `old` is nonempty. -/
def pyReplaceAux (old new : List Char) : Nat → List Char → List Char
  | 0, l => l
  | _ + 1, [] => []
  | fuel + 1, c :: rest =>
    if beginsWith (c :: rest) old then
      new ++ pyReplaceAux old new fuel ((c :: rest).drop old.length)
    else
      c :: pyReplaceAux old new fuel rest

/-- Python `str.replace(old, new)` for a nonempty `old`, over char lists. -/
def pyReplace (old new l : List Char) : List Char :=
  pyReplaceAux old new l.length l

/-- Modelled from the spec: the string form of a value used when substituting
a path parameter into the url template (section 4.4). -/
def valueToStr : Value → String
  | .null => "None"
  | .bool b => if b then "True" else "False"
  | .num n => toString n
  | .str s => s
  | .arr _ => "<arr>"
  | .obj _ => "<obj>"

/-- Modelled from the spec: bravado/mapping/param.py (`marshal_param`) is not
under src/.  Per section 4.4 the marshaler places the value into the request
slot selected by the parameter's location (path segment, query map, header,
form field or body), and an absent value (Python `None`) is replaced by the
parameter's declared default before being placed ("letting the marshaler
apply the default"). -/
def marshal_param (param : Param) (value : Value) (request : Request) : Request :=
  let v := match value with
    | .null => param.default_value
    | _ => value
  match param.location with
  | .path =>
    { request with
      url := (pyReplace ("\x7b" ++ param.name ++ "\x7d").toList
        (valueToStr v).toList request.url.toList).asString }
  | .query => { request with query := request.query ++ [(param.name, v)] }
  | .header => { request with headers := request.headers ++ [(param.name, v)] }
  | .formData => { request with formData := request.formData ++ [(param.name, v)] }
  | .body => { request with body := some v }

/-- Python `str.replace(a, b)` specialized to a one-character pattern, which
is exactly a character map. -/
def replaceChar (a b : Char) (l : List Char) : List Char :=
  l.map (fun c => if c = a then b else c)

/-- Python `'s'.replace("__", "_")` over char lists: one left-to-right scan
replacing each non-overlapping pair of consecutive underscores by a single
underscore (a run of three underscores therefore leaves two behind). -/
def replacePairUU : List Char → List Char
  | '_' :: '_' :: rest => '_' :: replacePairUU rest
  | c :: rest => c :: replacePairUU rest
  | [] => []

/-- Python `str.strip('_')`: removes every leading and trailing underscore. -/
def stripUnderscores (l : List Char) : List Char :=
  ((l.dropWhile (fun c => c = '_')).reverse.dropWhile (fun c => c = '_')).reverse

/-- operation.py lines 80-86: the derived operation id built from the http
method and the path template by the chain of `replace` calls followed by
`strip('_')`. -/
def derived_operation_id (http_method path_name : String) : String :=
  let s0 := (http_method ++ "_" ++ path_name).toList
  let s1 := replaceChar '/' '_' s0
  let s2 := replaceChar '{' '_' s1
  let s3 := replaceChar '}' '_' s2
  (stripUnderscores (replacePairUU s3)).asString

/-- operation.py lines 67-87 (`Operation.operation_id`): the explicitly
declared `operationId` when the spec carries one, the derived id otherwise.
The memoization in `self._operation_id` is a pure caching detail and the
value is modelled directly; a non-string non-null `operationId` (which the
Python code would return verbatim as a non-string) is outside the model. -/
def Operation.operation_id (op : Operation) : String :=
  match op.op_spec.lookup "operationId" with
  | some (.str s) => s
  | _ => derived_operation_id op.http_method op.path_name

/-- operation.py lines 89-90 (`Operation.__repr__`), which is also the string
form used when an `Operation` is interpolated into an error message. -/
def Operation.repr_str (op : Operation) : String :=
  "Operation(" ++ op.operation_id ++ ")"

/-- operation.py lines 119-124: the first loop of `construct_params`.  Each
call-time kwarg pops its parameter from the working dict `current` and
marshals the value into the request; a name with no parameter raises
`TypeError("{op_id} does not have parameter {name}")`. -/
def consume_kwargs (opid : String) :
    List (String × Param) → List (String × Value) → Request →
    Except Err (List (String × Param) × Request)
  | current, [], request => Except.ok (current, request)
  | current, (name, value) :: rest, request =>
    match assocPop current name with
    | (none, _) =>
      Except.error (.typeError (opid ++ " does not have parameter " ++ name))
    | (some param, current') =>
      consume_kwargs opid current' rest (marshal_param param value request)

/-- operation.py lines 126-132: the second loop of `construct_params` over the
parameters that were not supplied.  A required parameter raises
`TypeError("{name} is a required parameter")`; a non-required parameter with a
declared default is marshaled with the value `None`; anything else is
skipped. -/
def apply_remaining : List (String × Param) → Request → Except Err Request
  | [], request => Except.ok request
  | (_, p) :: rest, request =>
    if p.required then
      Except.error (.typeError (p.name ++ " is a required parameter"))
    else if !p.required && p.has_default then
      apply_remaining rest (marshal_param p .null request)
    else
      apply_remaining rest request

/-- operation.py lines 108-132 (`Operation.construct_params`): copies
`self.params` into a working dict, consumes the supplied kwargs, then checks
the remaining parameters.  `self.params` itself is only read (the explicit
heap model below makes the `.copy()` aliasing visible). -/
def Operation.construct_params (op : Operation) (request : Request)
    (op_kwargs : List (String × Value)) : Except Err Request := do
  let (current_params, request) ←
    consume_kwargs op.operation_id op.params op_kwargs request
  apply_remaining current_params request

/-- Python `request_options.get('headers', {})` (operation.py line 103). -/
def headersOf (request_options : Value) : List (String × Value) :=
  match request_options.lookup "headers" with
  | some (.obj fields) => fields
  | _ => []

/-- operation.py lines 92-106 (`Operation.construct_request`): pops the
reserved `_request_options` kwarg, builds the request skeleton (method, url,
empty query map, headers from the options) and delegates to
`construct_params`. -/
def Operation.construct_request (op : Operation)
    (kwargs : List (String × Value)) : Except Err Request :=
  let request_options :=
    match assocLookup kwargs "_request_options" with
    | some v => v
    | none => .obj []
  let kwargs := assocErase kwargs "_request_options"
  let request : Request :=
    { method := op.http_method
      url := op.swagger_spec.api_url ++ op.path_name
      query := []
      headers := headersOf request_options
      formData := []
      body := none }
  op.construct_params request kwargs

/-- The normalized response interface the core consumes (`ResponseLike`):
status code plus the body already parsed as JSON (`response.json()`). -/
structure ResponseLike where
  status_code : Int
  jsonBody : Value
deriving Repr

/-- The 3rd party http response object handed to `handle_response`: either a
`requests.models.Response` or a response of some other concrete type, carried
with the name of that type (operation.py lines 148-150). -/
inductive HttpResponse where
  | requests (status_code : Int) (jsonBody : Value)
  | other (typeName : String) (status_code : Int) (jsonBody : Value)
deriving Repr

/-- bravado.response.RequestsLibResponseAdapter: wraps a requests-library
response into the normalized interface. -/
def RequestsLibResponseAdapter (status_code : Int) (jsonBody : Value) :
    ResponseLike :=
  ⟨status_code, jsonBody⟩

/-- operation.py lines 213-216: the message of the SwaggerError raised when no
response spec matches.  The source formats `{0}` with the operation and `{1}`
with the status code, so the two slots appear in this (swapped) order; the
misspelling "specifiction" is the source's. -/
def response_spec_err_msg (op : Operation) (status_code : Int) : String :=
  "Response specification matching http status_code " ++ op.repr_str ++
    " not found for " ++ toString status_code ++
    ". Either add a response specifiction for the status_code or use a " ++
    "`default` response."

/-- operation.py lines 189-217 (`get_response_spec`): looks up the exact
string form of the status code in the operation's declared responses, falling
back to the `default` entry, and raises a SwaggerError when the result is
Python `None` (either key absent, or a stored JSON null).  An operation with
no `responses` key at all would raise an AttributeError on the `.get` call
(line 210). -/
def get_response_spec (status_code : Int) (op : Operation) : Except Err Value :=
  match op.op_spec.lookup "responses" with
  | none =>
    Except.error (.attributeError "NoneType object has no attribute get")
  | some response_specs =>
    let default_response_spec := response_specs.pyGet "default" .null
    let response_spec :=
      response_specs.pyGet (toString status_code) default_response_spec
    match response_spec with
    | .null => Except.error (.swaggerError (response_spec_err_msg op status_code))
    | v => Except.ok v

/-- Applies a fallible function to every element, keeping the first error. -/
def mapExcept (f : α → Except Err β) : List α → Except Err (List β)
  | [] => Except.ok []
  | x :: rest => do
    let y ← f x
    let ys ← mapExcept f rest
    Except.ok (y :: ys)

/-- Modelled from the spec: bravado/mapping/unmarshal.py
(`unmarshal_schema_object`) is not under src/.  Per section 4.6: scalar schema
types pass the raw value through after a type check, `array` recursively
unmarshals each element preserving order, `object` recursively unmarshals each
declared property (free-form objects pass the mapping through), a null raw
value always unmarshals to the absence sentinel, and a mismatch fails with a
SchemaUnmarshalError.  The fuel argument bounds the recursion depth and is
instantiated with the size of the raw value, which every recursive call
strictly decreases. -/
def unmarshal_fuel (sp : SwaggerSpec) : Nat → Value → Value → Except Err Value
  | 0, _, _ => Except.error (.schemaUnmarshalError "schema recursion too deep")
  | _ + 1, _, .null => Except.ok .null
  | fuel + 1, schema, v =>
    match schema.lookup "type" with
    | some (.str "integer") =>
      match v with
      | .num n => Except.ok (.num n)
      | _ => Except.error (.schemaUnmarshalError "expected an integer")
    | some (.str "number") =>
      match v with
      | .num n => Except.ok (.num n)
      | _ => Except.error (.schemaUnmarshalError "expected a number")
    | some (.str "string") =>
      match v with
      | .str s => Except.ok (.str s)
      | _ => Except.error (.schemaUnmarshalError "expected a string")
    | some (.str "boolean") =>
      match v with
      | .bool b => Except.ok (.bool b)
      | _ => Except.error (.schemaUnmarshalError "expected a boolean")
    | some (.str "array") =>
      match v with
      | .arr xs =>
        let items := (schema.lookup "items").getD .null
        (mapExcept (unmarshal_fuel sp fuel items) xs).map .arr
      | _ => Except.error (.schemaUnmarshalError "expected an array")
    | _ =>
      match v with
      | .obj fields =>
        match schema.lookup "properties" with
        | some (.obj props) =>
          (mapExcept
            (fun kv =>
              (unmarshal_fuel sp fuel ((assocLookup props kv.1).getD .null)
                kv.2).map (fun w => (kv.1, w)))
            fields).map .obj
        | _ => Except.ok (.obj fields)
      | w => Except.ok w

/-- Size of a value, used as recursion fuel for the unmarshaler. -/
def valueFuel : Value → Nat
  | .arr xs => 1 + listFuel xs
  | .obj fields => 1 + objFuel fields
  | _ => 1
where
  listFuel : List Value → Nat
    | [] => 0
    | x :: rest => valueFuel x + listFuel rest
  objFuel : List (String × Value) → Nat
    | [] => 0
    | (_, x) :: rest => valueFuel x + objFuel rest

/-- Modelled from the spec: the general recursive unmarshaler consumed by the
Operation layer as a black box (section 4.6). -/
def unmarshal_schema_object (sp : SwaggerSpec) (schema v : Value) :
    Except Err Value :=
  unmarshal_fuel sp (valueFuel v) schema v

/-- operation.py lines 166-186 (`unmarshal_response`): a response spec without
a `schema` key yields `(status_code, None)` without touching the body;
otherwise the JSON body is unmarshaled against the declared schema and paired
with the status code. -/
def unmarshal_response (swagger_spec : SwaggerSpec) (response_spec : Value)
    (response : ResponseLike) : Except Err (Int × Option Value) :=
  match response_spec.lookup "schema" with
  | none => Except.ok (response.status_code, none)
  | some content_spec =>
    (unmarshal_schema_object swagger_spec content_spec response.jsonBody).map
      (fun v => (response.status_code, some v))

/-- operation.py lines 145-163 (`handle_response`): a requests-library
response is adapted and flows through response-spec resolution and
unmarshaling; any other response type raises
`NotImplementedError('TODO: Handle response of type {0}')` before either of
those steps. -/
def handle_response (response : HttpResponse) (op : Operation) :
    Except Err (Int × Option Value) :=
  match response with
  | .requests status_code jsonBody =>
    let wrapped_response := RequestsLibResponseAdapter status_code jsonBody
    match get_response_spec wrapped_response.status_code op with
    | .error e => Except.error e
    | .ok response_spec =>
      unmarshal_response op.swagger_spec response_spec wrapped_response
  | .other typeName _ _ =>
    Except.error (.notImplementedError ("TODO: Handle response of type " ++ typeName))

/-- A store of parameter dictionaries addressed by index; models the Python
heap just enough to distinguish `self.params.copy()` (operation.py line 118)
from an aliasing use of `self.params`. -/
structure ParamHeap where
  dicts : List (List (String × Param))

/-- Dereferences a dict address. -/
def ParamHeap.get (h : ParamHeap) (r : Nat) : List (String × Param) :=
  (h.dicts[r]?).getD []

/-- Overwrites the dict at an address. -/
def ParamHeap.set (h : ParamHeap) (r : Nat) (d : List (String × Param)) :
    ParamHeap :=
  ⟨h.dicts.set r d⟩

/-- Allocates a fresh dict and returns its address. -/
def ParamHeap.alloc (h : ParamHeap) (d : List (String × Param)) :
    ParamHeap × Nat :=
  (⟨h.dicts ++ [d]⟩, h.dicts.length)

/-- Heap-level rendition of the first loop of `construct_params` (operation.py
lines 119-124): each `current_params.pop(param_name, None)` mutates the dict
at address `cur` in place. -/
def consume_kwargs_heap (opid : String) (cur : Nat) :
    ParamHeap → List (String × Value) → Request →
    ParamHeap × Except Err Request
  | h, [], request => (h, Except.ok request)
  | h, (name, value) :: rest, request =>
    let d := h.get cur
    let popped := assocPop d name
    let h' := h.set cur popped.2
    match popped.1 with
    | none =>
      (h', Except.error (.typeError (opid ++ " does not have parameter " ++ name)))
    | some param =>
      consume_kwargs_heap opid cur h' rest (marshal_param param value request)

/-- Heap-level rendition of `Operation.construct_params` (operation.py lines
108-132): line 118 copies the dict at `selfParams` into a freshly allocated
dict, the loops then act only on the copy (the second loop,
`itervalues`, reads without mutating). -/
def construct_params_heap (opid : String) (h : ParamHeap) (selfParams : Nat)
    (request : Request) (op_kwargs : List (String × Value)) :
    ParamHeap × Except Err Request :=
  let allocated := h.alloc (h.get selfParams)
  let h1 := allocated.1
  let cur := allocated.2
  let result := consume_kwargs_heap opid cur h1 op_kwargs request
  (result.1,
   match result.2 with
   | Except.ok request' => apply_remaining ((result.1).get cur) request'
   | Except.error e => Except.error e)

/-- Heap-level rendition of `Operation.construct_request` (operation.py lines
92-106): the request skeleton is built from per-call data only, and parameter
handling is delegated to `construct_params_heap`. -/
def construct_request_heap (opid : String) (http_method url : String)
    (h : ParamHeap) (selfParams : Nat) (kwargs : List (String × Value)) :
    ParamHeap × Except Err Request :=
  let request_options :=
    match assocLookup kwargs "_request_options" with
    | some v => v
    | none => .obj []
  let kwargs := assocErase kwargs "_request_options"
  let request : Request :=
    { method := http_method
      url := url
      query := []
      headers := headersOf request_options
      formData := []
      body := none }
  construct_params_heap opid h selfParams request kwargs

/-- Collapses every run of consecutive underscores to a single underscore;
this is the transformation the specification's words describe for the derived
operation id ("consecutive underscores collapsed to one"). -/
def collapseUnderscoreRuns : List Char → List Char
  | [] => []
  | c :: rest =>
    let t := collapseUnderscoreRuns rest
    if c = '_' then
      match t with
      | '_' :: _ => t
      | _ => c :: t
    else
      c :: t

/-- The derived operation id exactly as the specification words it: lowercased
http method, an underscore and the path template, every `/`, `\x7b`, `\x7d`
replaced by `_`, consecutive underscores collapsed to one, and leading and
trailing underscores trimmed. -/
def claimed_operation_id (http_method path_name : String) : String :=
  let s0 := (http_method.toList.map Char.toLower) ++ ('_' :: path_name.toList)
  let s1 := s0.map (fun c => if c = '/' ∨ c = '{' ∨ c = '}' then '_' else c)
  (stripUnderscores (collapseUnderscoreRuns s1)).asString

/-- Replaces `/`, `\x7b` and `\x7d` by `_`; the combined effect of the three
single-character `replace` calls in operation.py lines 82-84. -/
def substSpecial (c : Char) : Char :=
  if c = '/' ∨ c = '{' ∨ c = '}' then '_' else c

/-- The derived operation id as the amended claim words it: the http method
(used verbatim), an underscore and the path template, every `/`, `\x7b`,
`\x7d` replaced by `_`, then one left-to-right pass replacing each
non-overlapping pair of consecutive underscores by one underscore, and
leading and trailing underscores trimmed. -/
def amended_derived_id (http_method path_name : String) : String :=
  (stripUnderscores (replacePairUU
    (((http_method ++ "_" ++ path_name).toList).map substSpecial))).asString

/-- Operation-level declaration of parameter `p` used in the collision
fixture: a required query parameter. -/
def opLevelP : Value :=
  .obj [("name", .str "p"), ("in", .str "query"), ("required", .bool true)]

/-- Path-level declaration of parameter `p` used in the collision fixture: an
optional header parameter. -/
def pathLevelP : Value :=
  .obj [("name", .str "p"), ("in", .str "header"), ("required", .bool false)]

/-- A swagger spec whose `/pet` path declares the path-level `p`. -/
def collisionSpec : SwaggerSpec :=
  { spec_dict :=
      .obj [("paths", .obj [("/pet", .obj [("parameters", .arr [pathLevelP])])])]
    api_url := "http://petstore" }

/-- The `get /pet` operation declaring the operation-level `p`; its name
collides with the path-level declaration. -/
def collisionOp : Operation :=
  { swagger_spec := collisionSpec
    path_name := "/pet"
    http_method := "get"
    op_spec := .obj [("parameters", .arr [opLevelP])] }

/-- Names of the supplied call-time kwargs, in order. -/
def kwargNames (kwargs : List (String × Value)) : List String :=
  kwargs.map Prod.fst

/-- The effect on the request of marshaling the supplied kwargs in order,
phrased over the operation's original parameter set. -/
def suppliedFold (params : List (String × Param)) :
    List (String × Value) → Request → Request
  | [], req => req
  | nv :: rest, req =>
    suppliedFold params rest
      (match assocLookup params nv.1 with
       | some p => marshal_param p nv.2 req
       | none => req)

/-- The parameters that were not supplied in the call-time kwargs, are not
required, and declare a default; per C5 these are exactly the parameters
marshaled with the value `None` after the supplied kwargs. -/
def defaultedParams (params : List (String × Param))
    (kwargs : List (String × Value)) : List (String × Param) :=
  params.filter
    (fun kp => !((kwargNames kwargs).contains kp.1) && !kp.2.required &&
      kp.2.has_default)

/-- Discriminates the SpecValidationError class from the other error
classes. -/
def Err.isSpecValidationError : Err → Bool
  | .specValidationError _ => true
  | _ => false

/-- Spec subtree of a required query parameter `petId`. -/
def reqParamSpec : Value :=
  .obj [("name", .str "petId"), ("in", .str "query"), ("required", .bool true)]

/-- Spec subtree of an optional query parameter `limit` with default 20. -/
def optDefParamSpec : Value :=
  .obj [("name", .str "limit"), ("in", .str "query"), ("default", .num 20)]

/-- Spec subtree of an optional query parameter `tag` with no default. -/
def optNoDefParamSpec : Value :=
  .obj [("name", .str "tag"), ("in", .str "query")]

/-- The parameter set of the example `get /pet` operation. -/
def petParams : List (String × Param) :=
  [("petId", ⟨"petId", Location.query, reqParamSpec⟩),
   ("limit", ⟨"limit", Location.query, optDefParamSpec⟩),
   ("tag", ⟨"tag", Location.query, optNoDefParamSpec⟩)]

/-- The enclosing swagger spec of the example operations. -/
def petSwagger : SwaggerSpec :=
  { spec_dict := .obj [("paths", .obj [("/pet", .obj [])])]
    api_url := "http://petstore" }

/-- An example `get /pet` operation with built parameters and declared
responses for status 200 (string schema) and `default` (no content). -/
def petOp : Operation :=
  { swagger_spec := petSwagger
    path_name := "/pet"
    http_method := "get"
    op_spec := .obj [("responses", .obj
      [("200", .obj [("schema", .obj [("type", .str "string")])]),
       ("default", .obj [])])]
    params := petParams }

/-- An example operation declaring only a 200 response and no `default`. -/
def noDefaultOp : Operation :=
  { swagger_spec := petSwagger
    path_name := "/pet"
    http_method := "get"
    op_spec := .obj [("responses", .obj [("200", .obj [])])] }

/-- The request skeleton used by the construct_params examples. -/
def emptyRequest : Request :=
  { method := "get", url := "http://petstore/pet", query := [], headers := []
    formData := [], body := none }

/-- An operation whose path is a single brace-delimited template segment; its
derived id exposes the difference between the code's single-pass pair
replacement and the claim's run collapsing. -/
def braceOp : Operation :=
  { swagger_spec := petSwagger
    path_name := "/\x7bx\x7d"
    http_method := "get"
    op_spec := .obj [] }

/-- An operation with an explicitly declared operationId. -/
def explicitIdOp : Operation :=
  { swagger_spec := petSwagger
    path_name := "/pet"
    http_method := "get"
    op_spec := .obj [("operationId", .str "listPets")] }

/-- An operation with no declared operationId and a templated path. -/
def petIdOp : Operation :=
  { swagger_spec := petSwagger
    path_name := "/pet/\x7bpetId\x7d"
    http_method := "get"
    op_spec := .obj [] }

/-- An operation whose path is absent from the spec's paths table. -/
def missingPathOp : Operation :=
  { swagger_spec := { spec_dict := .obj [("paths", .obj [])]
                      api_url := "http://petstore" }
    path_name := "/missing"
    http_method := "get"
    op_spec := .obj [] }

/-- A heap holding one parameter dict at address 0. -/
def exampleHeap : ParamHeap :=
  ⟨[[("petId", ⟨"petId", Location.query, reqParamSpec⟩)]]⟩

lemma assocLookup_erase_ne {α : Type} (l : List (String × α)) (key k : String)
    (h : k ≠ key) : assocLookup (assocErase l key) k = assocLookup l k := by
  induction l with
  | nil => rfl
  | cons kv rest ih =>
    obtain ⟨k', v⟩ := kv
    by_cases hk : k' = key
    · subst hk
      have hne : ¬ (k' = k) := fun hkk => h hkk.symm
      simp [assocErase, assocLookup, hne]
    · by_cases hkk : k' = k
      · simp [assocErase, assocLookup, hk, hkk, h]
      · simp [assocErase, assocLookup, hk, hkk, h, ih]

lemma consume_kwargs_unknown (opid : String) :
    ∀ (kwargs : List (String × Value)) (current : List (String × Param))
      (req : Request),
    (kwargNames kwargs).Nodup →
    (∃ nv ∈ kwargs, assocLookup current nv.1 = none) →
    ∃ bad ∈ kwargNames kwargs, assocLookup current bad = none ∧
      consume_kwargs opid current kwargs req =
        Except.error (.typeError (opid ++ " does not have parameter " ++ bad))
  | [], _, _, _, h => absurd h (by simp)
  | (name, value) :: rest, current, req, hnodup, h => by
    cases hl : assocLookup current name with
    | none =>
      refine ⟨name, by simp [kwargNames], hl, ?_⟩
      simp [consume_kwargs, assocPop, hl]
    | some param =>
      obtain ⟨nv, hmem, hnone⟩ := h
      have hcons : kwargNames ((name, value) :: rest) = name :: kwargNames rest := rfl
      have hnodup2 : (name :: kwargNames rest).Nodup := hcons ▸ hnodup
      have hnn : name ∉ kwargNames rest := (List.nodup_cons.mp hnodup2).1
      have hnv : nv ∈ rest := by
        rcases List.mem_cons.mp hmem with heq | hr
        · subst heq; simp [hl] at hnone
        · exact hr
      have hname : nv.1 ≠ name := by
        intro hcontra
        exact hnn (hcontra ▸ List.mem_map_of_mem Prod.fst hnv)
      have hnone' : assocLookup (assocErase current name) nv.1 = none := by
        rw [assocLookup_erase_ne current name nv.1 hname]; exact hnone
      have hnodup' : (kwargNames rest).Nodup := (List.nodup_cons.mp hnodup2).2
      obtain ⟨bad, hbadmem, hbadnone, heq⟩ :=
        consume_kwargs_unknown opid rest (assocErase current name)
          (marshal_param param value req) hnodup' ⟨nv, hnv, hnone'⟩
      have hbadname : bad ≠ name := fun hcontra => hnn (hcontra ▸ hbadmem)
      refine ⟨bad, by rw [hcons]; exact List.mem_cons_of_mem name hbadmem, ?_, ?_⟩
      · rw [← assocLookup_erase_ne current name bad hbadname]; exact hbadnone
      · simp [consume_kwargs, assocPop, hl, heq]

/-- C3: for every call to `construct_params` whose kwargs contain a name that
is not a key of the operation's parameter set, the call fails with a
TypeError identifying that the operation has no such parameter
(`"{operation_id} does not have parameter {name}"`, operation.py lines
118-124).  The error is raised by `construct_params` itself, before the
transport future is ever built (`__call__`, lines 134-142), hence before any
network I/O.  Call-time kwargs are a Python dict, so their names are assumed
distinct. -/
theorem C3_unknown_parameter (op : Operation) (req : Request)
    (kwargs : List (String × Value))
    (hnodup : (kwargNames kwargs).Nodup)
    (h : ∃ nv ∈ kwargs, assocLookup op.params nv.1 = none) :
    ∃ bad ∈ kwargNames kwargs, assocLookup op.params bad = none ∧
      op.construct_params req kwargs =
        Except.error
          (.typeError (op.operation_id ++ " does not have parameter " ++ bad)) := by
  obtain ⟨bad, hmem, hnone, heq⟩ :=
    consume_kwargs_unknown op.operation_id kwargs op.params req hnodup h
  refine ⟨bad, hmem, hnone, ?_⟩
  unfold Operation.construct_params
  rw [heq]
  rfl

lemma suppliedFold_congr (p1 p2 : List (String × Param)) :
    ∀ (kwargs : List (String × Value)) (req : Request),
    (∀ nv ∈ kwargs, assocLookup p1 nv.1 = assocLookup p2 nv.1) →
    suppliedFold p1 kwargs req = suppliedFold p2 kwargs req
  | [], _, _ => rfl
  | nv :: rest, req, h => by
    simp only [suppliedFold]
    rw [h nv (List.mem_cons_self nv rest)]
    exact suppliedFold_congr p1 p2 rest _
      (fun nv' hnv' => h nv' (List.mem_cons_of_mem nv hnv'))

lemma assocErase_eq_filter {α : Type} (l : List (String × α)) (key : String)
    (hnodup : (l.map Prod.fst).Nodup) :
    assocErase l key = l.filter (fun kp => !(kp.1 == key)) := by
  induction l with
  | nil => rfl
  | cons kv rest ih =>
    obtain ⟨k, v⟩ := kv
    rw [List.map_cons, List.nodup_cons] at hnodup
    by_cases hk : k = key
    · subst hk
      have hall : ∀ kp ∈ rest, (!(kp.1 == k)) = true := by
        intro kp hkp
        have hmem : kp.1 ∈ List.map Prod.fst rest :=
          List.mem_map_of_mem Prod.fst hkp
        have hne : kp.1 ≠ k := by
          intro hc
          rw [hc] at hmem
          exact hnodup.1 hmem
        simp [hne]
      simp [assocErase, List.filter_cons, List.filter_eq_self.mpr hall]
    · simp [assocErase, List.filter_cons, hk, ih hnodup.2]

lemma consume_kwargs_ok (opid : String) :
    ∀ (kwargs : List (String × Value)) (current : List (String × Param))
      (req : Request),
    (current.map Prod.fst).Nodup →
    (kwargNames kwargs).Nodup →
    (∀ nv ∈ kwargs, (assocLookup current nv.1).isSome) →
    consume_kwargs opid current kwargs req =
      Except.ok
        (current.filter (fun kp => !((kwargNames kwargs).contains kp.1)),
         suppliedFold current kwargs req)
  | [], current, req, _, _, _ => by
    have hid : current.filter
        (fun kp => !((kwargNames []).contains kp.1)) = current :=
      List.filter_eq_self.mpr (fun a _ => rfl)
    show Except.ok (current, req) = _
    rw [hid]
    rfl
  | (name, value) :: rest, current, req, hnodupC, hnodupK, hsome => by
    obtain ⟨param, hl⟩ := Option.isSome_iff_exists.mp
      (hsome (name, value) (List.mem_cons_self _ _))
    have hcons : kwargNames ((name, value) :: rest) = name :: kwargNames rest := rfl
    have hnodup2 : (name :: kwargNames rest).Nodup := hcons ▸ hnodupK
    have hnn : name ∉ kwargNames rest := (List.nodup_cons.mp hnodup2).1
    have hnodupK' : (kwargNames rest).Nodup := (List.nodup_cons.mp hnodup2).2
    have herase := assocErase_eq_filter current name hnodupC
    have hnodupC' : ((assocErase current name).map Prod.fst).Nodup := by
      rw [herase]
      exact hnodupC.sublist ((List.filter_sublist current).map Prod.fst)
    have hpres : ∀ nv ∈ rest,
        assocLookup (assocErase current name) nv.1 = assocLookup current nv.1 := by
      intro nv hnv
      have hne : nv.1 ≠ name :=
        fun hc => hnn (hc ▸ List.mem_map_of_mem Prod.fst hnv)
      exact assocLookup_erase_ne current name nv.1 hne
    have hsome' : ∀ nv ∈ rest,
        (assocLookup (assocErase current name) nv.1).isSome := by
      intro nv hnv
      rw [hpres nv hnv]
      exact hsome nv (List.mem_cons_of_mem _ hnv)
    have hrec := consume_kwargs_ok opid rest (assocErase current name)
      (marshal_param param value req) hnodupC' hnodupK' hsome'
    have hstep : consume_kwargs opid current ((name, value) :: rest) req =
        consume_kwargs opid (assocErase current name) rest
          (marshal_param param value req) := by
      simp [consume_kwargs, assocPop, hl]
    rw [hstep, hrec]
    have hfilter : (assocErase current name).filter
        (fun kp => !((kwargNames rest).contains kp.1)) =
        current.filter
          (fun kp => !((kwargNames ((name, value) :: rest)).contains kp.1)) := by
      rw [herase, List.filter_filter]
      apply List.filter_congr
      intro kp _
      rw [hcons, List.contains_cons]
      cases hb : kp.1 == name <;> simp [hb]
    have hfold : suppliedFold (assocErase current name) rest
        (marshal_param param value req) =
        suppliedFold current ((name, value) :: rest) req := by
      rw [suppliedFold_congr (assocErase current name) current rest
        (marshal_param param value req) hpres]
      simp only [suppliedFold]
      rw [hl]
    rw [hfilter, hfold]

lemma apply_remaining_no_required :
    ∀ (rem : List (String × Param)) (req : Request),
    (∀ kp ∈ rem, kp.2.required = false) →
    apply_remaining rem req =
      Except.ok
        (List.foldl (fun r kp => marshal_param kp.2 .null r) req
          (rem.filter (fun kp => kp.2.has_default)))
  | [], req, _ => rfl
  | (k, p) :: rest, req, h => by
    have hp : p.required = false := h (k, p) (List.mem_cons_self _ _)
    have hrest : ∀ kp ∈ rest, kp.2.required = false :=
      fun kp hkp => h kp (List.mem_cons_of_mem _ hkp)
    cases hd : p.has_default with
    | true =>
      simp [apply_remaining, hp, hd, List.filter_cons,
        apply_remaining_no_required rest (marshal_param p .null req) hrest]
    | false =>
      simp [apply_remaining, hp, hd, List.filter_cons,
        apply_remaining_no_required rest req hrest]

lemma apply_remaining_required_err :
    ∀ (rem : List (String × Param)) (req : Request) (kq : String × Param),
    rem.find? (fun kp => kp.2.required) = some kq →
    apply_remaining rem req =
      Except.error (.typeError (kq.2.name ++ " is a required parameter"))
  | [], _, _, h => by simp [List.find?] at h
  | (k, p) :: rest, req, kq, h => by
    rw [List.find?_cons] at h
    cases hp : p.required with
    | true =>
      rw [hp] at h
      simp only [Option.some.injEq] at h
      simp [apply_remaining, hp, ← h]
    | false =>
      rw [hp] at h
      cases hd : p.has_default with
      | true =>
        simp [apply_remaining, hp, hd,
          apply_remaining_required_err rest (marshal_param p .null req) kq h]
      | false =>
        simp [apply_remaining, hp, hd,
          apply_remaining_required_err rest req kq h]

lemma find?_of_exists {α : Type} (p : α → Bool) :
    ∀ (l : List α), (∃ x ∈ l, p x = true) →
    ∃ y, l.find? p = some y ∧ p y = true ∧ y ∈ l
  | [], h => absurd h (by simp)
  | a :: rest, h => by
    cases hp : p a with
    | true => exact ⟨a, by simp [List.find?_cons, hp], hp, List.mem_cons_self _ _⟩
    | false =>
      obtain ⟨x, hx, hpx⟩ := h
      have hxr : x ∈ rest := by
        rcases List.mem_cons.mp hx with heq | hr
        · subst heq; rw [hp] at hpx; exact absurd hpx (by simp)
        · exact hr
      obtain ⟨y, hy, hpy, hmy⟩ := find?_of_exists p rest ⟨x, hxr, hpx⟩
      exact ⟨y, by simp [List.find?_cons, hp, hy], hpy, List.mem_cons_of_mem a hmy⟩

lemma construct_params_eq (op : Operation) (req : Request)
    (kwargs : List (String × Value))
    (hnodupP : (op.params.map Prod.fst).Nodup)
    (hnodupK : (kwargNames kwargs).Nodup)
    (hknown : ∀ nv ∈ kwargs, (assocLookup op.params nv.1).isSome) :
    op.construct_params req kwargs =
      apply_remaining
        (op.params.filter (fun kp => !((kwargNames kwargs).contains kp.1)))
        (suppliedFold op.params kwargs req) := by
  unfold Operation.construct_params
  rw [consume_kwargs_ok op.operation_id kwargs op.params req hnodupP hnodupK
    hknown]
  rfl

/-- C4: for every call to `construct_params` whose kwargs are an otherwise
well-formed call (each kwarg names a declared parameter; kwargs come from a
Python dict, hence distinct names; the dict built by `build_params` keys each
Param by its own name) that omits some required parameter, the call fails
with `TypeError("{name} is a required parameter")` where the named parameter
is a required parameter that was omitted (operation.py lines 126-130; the
code names the first such parameter in iteration order). -/
theorem C4_missing_required_parameter (op : Operation) (req : Request)
    (kwargs : List (String × Value))
    (hnodupP : (op.params.map Prod.fst).Nodup)
    (hkeys : ∀ kp ∈ op.params, kp.1 = kp.2.name)
    (hnodupK : (kwargNames kwargs).Nodup)
    (hknown : ∀ nv ∈ kwargs, (assocLookup op.params nv.1).isSome)
    (hmiss : ∃ kp ∈ op.params, kp.2.required = true ∧
      kp.1 ∉ kwargNames kwargs) :
    ∃ q : Param, q.required = true ∧ q.name ∉ kwargNames kwargs ∧
      (∃ k, (k, q) ∈ op.params) ∧
      op.construct_params req kwargs =
        Except.error (.typeError (q.name ++ " is a required parameter")) := by
  obtain ⟨kp, hkp, hreqd, hnin⟩ := hmiss
  have hkpfilter : kp ∈ op.params.filter
      (fun kp => !((kwargNames kwargs).contains kp.1)) := by
    rw [List.mem_filter]
    exact ⟨hkp, by simp [hnin]⟩
  obtain ⟨q', hfind, hq'req, hq'mem⟩ :=
    find?_of_exists (fun kp => kp.2.required) _ ⟨kp, hkpfilter, hreqd⟩
  have hq'filter := List.mem_filter.mp hq'mem
  have hq'name : q'.1 = q'.2.name := hkeys q' hq'filter.1
  refine ⟨q'.2, hq'req, ?_, ⟨q'.1, by rw [Prod.mk.eta]; exact hq'filter.1⟩, ?_⟩
  · rw [← hq'name]
    intro hc
    have hcontains := hq'filter.2
    simp [hc] at hcontains
  · rw [construct_params_eq op req kwargs hnodupP hnodupK hknown]
    exact apply_remaining_required_err _ _ q' hfind

/-- C5: for every successful call to `construct_params` (kwargs name declared
parameters, distinct names, no required parameter omitted), the result is the
request obtained by marshaling the supplied kwargs and then marshaling each
unsupplied non-required parameter with a declared default exactly once with
the value `None` (so `marshal_param` applies the default, operation.py lines
126-132); `defaultedParams` lists those parameters with distinct keys (each
appears once), and any unsupplied parameter without a default is not in the
list, i.e. silently omitted. -/
theorem C5_defaults_marshaled_once (op : Operation) (req : Request)
    (kwargs : List (String × Value))
    (hnodupP : (op.params.map Prod.fst).Nodup)
    (hnodupK : (kwargNames kwargs).Nodup)
    (hknown : ∀ nv ∈ kwargs, (assocLookup op.params nv.1).isSome)
    (hreq : ∀ kp ∈ op.params, kp.2.required = true →
      kp.1 ∈ kwargNames kwargs) :
    op.construct_params req kwargs =
      Except.ok
        (List.foldl (fun r kp => marshal_param kp.2 .null r)
          (suppliedFold op.params kwargs req)
          (defaultedParams op.params kwargs)) ∧
    ((defaultedParams op.params kwargs).map Prod.fst).Nodup ∧
    (∀ kp ∈ op.params, kp.2.has_default = false →
      kp ∉ defaultedParams op.params kwargs) := by
  have hnoreq : ∀ kp ∈ op.params.filter
      (fun kp => !((kwargNames kwargs).contains kp.1)),
      kp.2.required = false := by
    intro kp hkp
    obtain ⟨hmem, hpred⟩ := List.mem_filter.mp hkp
    cases hr : kp.2.required with
    | false => rfl
    | true =>
      have hin := hreq kp hmem hr
      simp [hin] at hpred
  have hfilters : (op.params.filter
      (fun kp => !((kwargNames kwargs).contains kp.1))).filter
          (fun kp => kp.2.has_default) =
      defaultedParams op.params kwargs := by
    rw [List.filter_filter]
    apply List.filter_congr
    intro kp hkp
    cases hc : (kwargNames kwargs).contains kp.1 with
    | true => simp [defaultedParams, hc]
    | false =>
      have hr : kp.2.required = false := by
        cases hr : kp.2.required with
        | false => rfl
        | true =>
          have hin := hreq kp hkp hr
          simp [hin] at hc
      simp [defaultedParams, hc, hr]
  refine ⟨?_, ?_, ?_⟩
  · rw [construct_params_eq op req kwargs hnodupP hnodupK hknown,
      apply_remaining_no_required _ _ hnoreq, hfilters]
  · exact hnodupP.sublist ((List.filter_sublist _).map Prod.fst)
  · intro kp _ hnd hmem
    obtain ⟨_, hpred⟩ := List.mem_filter.mp hmem
    simp [hnd] at hpred

/-- C1: `build_params` concatenates the operation-level `parameters` with the
path-level `parameters` in that order (operation.py line 61) and inserts them
into a last-write-wins dict keyed by name (line 65), so on a name collision
the PATH-LEVEL declaration is the one kept — the opposite of the claim (and
of the Swagger 2.0 rule the module implements, under which operation-level
parameters override path-level ones).  At the fixture the kept Param for `p`
is the path-level optional header declaration, not the operation-level
required query declaration; the key-set union part of the claim does hold. -/
theorem C1_collision_keeps_path_level_param :
    Operation.build_params collisionOp =
      Except.ok { collisionOp with
        params := [("p", ⟨"p", Location.header, pathLevelP⟩)] } ∧
    Param.from_spec pathLevelP =
      Except.ok ⟨"p", Location.header, pathLevelP⟩ ∧
    Param.from_spec opLevelP = Except.ok ⟨"p", Location.query, opLevelP⟩ ∧
    Location.header ≠ Location.query :=
  ⟨rfl, rfl, rfl, by decide⟩

/-- C2: `get_response_spec` returns the response entry keyed by the exact
string form of the status code when such an entry is declared, falls back to
the `default` entry otherwise, and when neither exists raises a SwaggerError
whose message carries the operation (via its repr, which contains the
operation id) and the status code (operation.py lines 189-217).  Declared
entries are response-spec subtrees, hence not JSON null. -/
theorem C2_response_spec_resolution (op : Operation) (s : Int) (rs : Value)
    (hrs : op.op_spec.lookup "responses" = some rs) :
    (∀ v, rs.lookup (toString s) = some v → v ≠ .null →
      get_response_spec s op = Except.ok v) ∧
    (rs.lookup (toString s) = none → ∀ d, rs.lookup "default" = some d →
      d ≠ .null → get_response_spec s op = Except.ok d) ∧
    (rs.lookup (toString s) = none → rs.lookup "default" = none →
      get_response_spec s op =
        Except.error (.swaggerError (response_spec_err_msg op s))) := by
  refine ⟨?_, ?_, ?_⟩
  · intro v hv hvn
    unfold get_response_spec
    rw [hrs]
    simp only [Value.pyGet, hv]
  · intro hnone d hd hdn
    unfold get_response_spec
    rw [hrs]
    simp only [Value.pyGet, hnone, hd]
  · intro hnone hdnone
    unfold get_response_spec
    rw [hrs]
    simp only [Value.pyGet, hnone, hdnone]

/-- C2 witness: at the fixtures, status 200 resolves to the declared 200
entry, status 404 falls back to `default`, and status 500 with no `default`
raises the SwaggerError. -/
theorem C2_witness :
    get_response_spec 200 petOp =
      Except.ok (.obj [("schema", .obj [("type", .str "string")])]) ∧
    get_response_spec 404 petOp = Except.ok (.obj []) ∧
    get_response_spec 500 noDefaultOp =
      Except.error (.swaggerError (response_spec_err_msg noDefaultOp 500)) :=
  ⟨(C2_response_spec_resolution petOp 200 _ rfl).1 _ rfl
      (fun h => Value.noConfusion h),
   (C2_response_spec_resolution petOp 404 _ rfl).2.1 rfl _ rfl
      (fun h => Value.noConfusion h),
   (C2_response_spec_resolution noDefaultOp 500 _ rfl).2.2 rfl rfl⟩

/-- C6 counterexample: for method `get` and path `/\x7bx\x7d` the code's
`.replace('__', '_')` (a single left-to-right pass over non-overlapping
pairs) yields `get__x`, while the claim's rule (consecutive underscores
collapsed to one) yields `get_x`, so the claim's formula disagrees with the
code on this input. -/
theorem C6_counterexample :
    Operation.operation_id braceOp = "get__x" ∧
    claimed_operation_id braceOp.http_method braceOp.path_name = "get_x" ∧
    Operation.operation_id braceOp ≠
      claimed_operation_id braceOp.http_method braceOp.path_name := by
  refine ⟨by decide, by decide, by decide⟩

lemma derived_eq_amended (m p : String) :
    derived_operation_id m p = amended_derived_id m p := by
  simp only [derived_operation_id, amended_derived_id, replaceChar,
    List.map_map]
  have hf : ((fun c => if c = '}' then '_' else c) ∘
      (fun c => if c = '{' then '_' else c) ∘
      (fun c => if c = '/' then '_' else c)) = substSpecial := by
    funext c
    by_cases h1 : c = '/'
    · simp [Function.comp, h1, substSpecial]
    · by_cases h2 : c = '{'
      · simp [Function.comp, h1, h2, substSpecial]
      · by_cases h3 : c = '}'
        · simp [Function.comp, h1, h2, h3, substSpecial]
        · simp [Function.comp, h1, h2, h3, substSpecial]
  rw [hf]

/-- C6 amended: an explicitly declared `operationId` is returned verbatim;
otherwise the derived id is the http method (used verbatim; methods are
lowercase strings in a swagger spec), an underscore and the path template,
with every `/`, `\x7b`, `\x7d` replaced by `_`, then one left-to-right pass
replacing each non-overlapping pair of consecutive underscores by a single
underscore, and leading/trailing underscores trimmed; in particular method
`get` with path `/pet/\x7bpetId\x7d` derives `get_pet_petId`
(operation.py lines 67-87). -/
theorem C6_operation_id_derivation (op : Operation) :
    (∀ s, op.op_spec.lookup "operationId" = some (.str s) →
      op.operation_id = s) ∧
    (op.op_spec.lookup "operationId" = none →
      op.operation_id = amended_derived_id op.http_method op.path_name) ∧
    amended_derived_id "get" "/pet/\x7bpetId\x7d" = "get_pet_petId" := by
  refine ⟨?_, ?_, by decide⟩
  · intro s hs
    unfold Operation.operation_id
    rw [hs]
  · intro hn
    unfold Operation.operation_id
    rw [hn]
    exact derived_eq_amended op.http_method op.path_name

/-- C6 witness: both branches of the amended derivation at concrete
operations. -/
theorem C6_witness :
    Operation.operation_id explicitIdOp = "listPets" ∧
    Operation.operation_id petIdOp =
      amended_derived_id "get" "/pet/\x7bpetId\x7d" :=
  ⟨(C6_operation_id_derivation explicitIdOp).1 "listPets" rfl,
   (C6_operation_id_derivation petIdOp).2.1 rfl⟩

/-- C3 witness: calling the example operation with the unknown kwarg `bogus`
fails with the TypeError naming the operation and the kwarg. -/
theorem C3_witness :
    petOp.construct_params emptyRequest [("bogus", Value.num 1)] =
      Except.error (.typeError
        (petOp.operation_id ++ " does not have parameter " ++ "bogus")) := by
  obtain ⟨bad, hmem, hnone, heq⟩ :=
    C3_unknown_parameter petOp emptyRequest [("bogus", Value.num 1)]
      (by decide)
      ⟨("bogus", Value.num 1), List.mem_cons_self _ _, rfl⟩
  have hbad : bad = "bogus" := by
    simpa [kwargNames] using hmem
  rw [hbad] at heq
  exact heq

/-- C4 witness: invoking the example operation with no kwargs at all omits
the required `petId` and fails with the TypeError naming a required omitted
parameter. -/
theorem C4_witness :
    ∃ q : Param, q.required = true ∧ q.name ∉ kwargNames [] ∧
      (∃ k, (k, q) ∈ petOp.params) ∧
      petOp.construct_params emptyRequest [] =
        Except.error (.typeError (q.name ++ " is a required parameter")) :=
  C4_missing_required_parameter petOp emptyRequest []
    (by decide) (by decide) (by decide)
    (fun nv h => absurd h (List.not_mem_nil nv))
    ⟨("petId", ⟨"petId", Location.query, reqParamSpec⟩),
      List.mem_cons_self _ _, rfl, by simp [kwargNames]⟩

/-- C5 witness: supplying only the required `petId` marshals it, then
marshals the defaulted `limit` once with the value `None`, and omits `tag`. -/
theorem C5_witness :
    petOp.construct_params emptyRequest [("petId", Value.num 7)] =
      Except.ok
        (List.foldl (fun r kp => marshal_param kp.2 .null r)
          (suppliedFold petOp.params [("petId", Value.num 7)] emptyRequest)
          (defaultedParams petOp.params [("petId", Value.num 7)])) :=
  (C5_defaults_marshaled_once petOp emptyRequest [("petId", Value.num 7)]
    (by decide) (by decide) (by decide) (by decide)).1

/-- C7: `unmarshal_response` always yields a (status_code, value) pair: when
the response spec declares no `schema` the value is `None` and the result
does not depend on the response body (the body is never read); otherwise the
value is the recursive unmarshaling of the JSON body against the declared
schema (operation.py lines 166-186). -/
theorem C7_unmarshal_response_pair (sp : SwaggerSpec) (response_spec : Value)
    (r : ResponseLike) :
    (response_spec.lookup "schema" = none →
      unmarshal_response sp response_spec r =
        Except.ok (r.status_code, none) ∧
      ∀ body', unmarshal_response sp response_spec ⟨r.status_code, body'⟩ =
        unmarshal_response sp response_spec r) ∧
    (∀ schema, response_spec.lookup "schema" = some schema →
      unmarshal_response sp response_spec r =
        (unmarshal_schema_object sp schema r.jsonBody).map
          (fun v => (r.status_code, some v))) := by
  constructor
  · intro hns
    constructor
    · unfold unmarshal_response
      rw [hns]
    · intro body'
      unfold unmarshal_response
      rw [hns]
  · intro schema hs
    unfold unmarshal_response
    rw [hs]

/-- C7 witness: a no-schema response spec yields `(200, none)` for any body,
and an integer-schema response spec unmarshals the JSON body. -/
theorem C7_witness :
    unmarshal_response petSwagger (.obj []) ⟨200, .num 7⟩ =
      Except.ok (200, none) ∧
    unmarshal_response petSwagger (.obj []) ⟨200, .str "ignored"⟩ =
      unmarshal_response petSwagger (.obj []) ⟨200, .num 7⟩ ∧
    unmarshal_response petSwagger
        (.obj [("schema", .obj [("type", .str "integer")])]) ⟨200, .num 7⟩ =
      (unmarshal_schema_object petSwagger (.obj [("type", .str "integer")])
        (Value.num 7)).map (fun v => ((200 : Int), some v)) :=
  ⟨((C7_unmarshal_response_pair petSwagger (.obj []) ⟨200, .num 7⟩).1 rfl).1,
   ((C7_unmarshal_response_pair petSwagger (.obj []) ⟨200, .num 7⟩).1 rfl).2
     (.str "ignored"),
   (C7_unmarshal_response_pair petSwagger
     (.obj [("schema", .obj [("type", .str "integer")])]) ⟨200, .num 7⟩).2
     _ rfl⟩

/-- C8 counterexample: when the operation's path is absent from the spec's
paths table, `build_params` fails with the raw KeyError of the dict subscript
`self.swagger_spec.spec_dict['paths'][self.path_name]` (operation.py line
59), which is not a SpecValidationError-class error. -/
theorem C8_counterexample :
    Operation.build_params missingPathOp =
      Except.error (.keyError "/missing") ∧
    Err.isSpecValidationError (Err.keyError "/missing") = false :=
  ⟨rfl, rfl⟩

/-- C8 amended: for every operation whose path name is absent from the spec's
paths table, `build_params` fails with an uncaught KeyError carrying the
missing path name (the plain mapping-lookup error, not a dedicated
spec-validation error class). -/
theorem C8_missing_path_raises_key_error (op : Operation) (paths : Value)
    (hp : op.swagger_spec.spec_dict.lookup "paths" = some paths)
    (hmiss : paths.lookup op.path_name = none) :
    Operation.build_params op = Except.error (.keyError op.path_name) := by
  unfold Operation.build_params
  simp [hp, hmiss]

/-- C8 witness: the amended statement evaluated at the concrete fixture. -/
theorem C8_witness :
    Operation.build_params missingPathOp =
      Except.error (.keyError "/missing") :=
  C8_missing_path_raises_key_error missingPathOp (.obj []) rfl rfl

/-- C9: for every response object that is not a requests-library response,
`handle_response` fails with the NotImplementedError naming the response's
type (operation.py lines 155-160); the result is the same for every
operation, so neither response-spec resolution nor unmarshaling is ever
reached. -/
theorem C9_unsupported_response_type (typeName : String) (status_code : Int)
    (body : Value) (op : Operation) :
    handle_response (.other typeName status_code body) op =
      Except.error
        (.notImplementedError ("TODO: Handle response of type " ++ typeName)) :=
  rfl

lemma ParamHeap.get_set_ne (h : ParamHeap) (i j : Nat)
    (d : List (String × Param)) (hij : i ≠ j) :
    (h.set i d).get j = h.get j := by
  simp [ParamHeap.get, ParamHeap.set, List.getElem?_set_ne hij]

lemma consume_kwargs_heap_frame (opid : String) (cur : Nat) :
    ∀ (kwargs : List (String × Value)) (h : ParamHeap) (req : Request)
      (j : Nat), j ≠ cur →
    ((consume_kwargs_heap opid cur h kwargs req).1).get j = h.get j
  | [], _, _, _, _ => rfl
  | (name, value) :: rest, h, req, j, hj => by
    cases hp : assocLookup (h.get cur) name with
    | none =>
      have hred : (consume_kwargs_heap opid cur h
          ((name, value) :: rest) req).1 =
          h.set cur (assocErase (h.get cur) name) := by
        simp [consume_kwargs_heap, assocPop, hp]
      rw [hred]
      exact ParamHeap.get_set_ne h cur j _ hj.symm
    | some param =>
      have hred : consume_kwargs_heap opid cur h ((name, value) :: rest) req =
          consume_kwargs_heap opid cur
            (h.set cur (assocErase (h.get cur) name)) rest
            (marshal_param param value req) := by
        simp [consume_kwargs_heap, assocPop, hp]
      rw [hred,
        consume_kwargs_heap_frame opid cur rest _ _ j hj,
        ParamHeap.get_set_ne h cur j _ hj.symm]

lemma construct_params_heap_frame (opid : String) (h : ParamHeap) (ref : Nat)
    (req : Request) (kwargs : List (String × Value))
    (href : ref < h.dicts.length) :
    ((construct_params_heap opid h ref req kwargs).1).get ref = h.get ref := by
  have h1get : (ParamHeap.mk (h.dicts ++ [h.get ref])).get ref = h.get ref := by
    simp [ParamHeap.get, List.getElem?_append, href]
  have hstep : ((construct_params_heap opid h ref req kwargs).1) =
      (consume_kwargs_heap opid h.dicts.length
        (ParamHeap.mk (h.dicts ++ [h.get ref])) kwargs req).1 := rfl
  rw [hstep,
    consume_kwargs_heap_frame opid h.dicts.length kwargs _ req ref
      (Nat.ne_of_lt href), h1get]

/-- C10: for every call to `construct_params` or `construct_request`, whether
it succeeds or fails, the dict held in `self.params` is unchanged afterwards:
line 118 copies it into a fresh dict and every `pop` of the call mutates only
that per-call copy, so the same Operation can be invoked repeatedly with
identical results.  The heap model makes the `.copy()` aliasing explicit:
the dict at address `ref` (the operation's own `self.params`) is untouched,
while the pops act on the freshly allocated address. -/
theorem C10_self_params_unchanged (opid http_method url : String)
    (h : ParamHeap) (ref : Nat) (req : Request)
    (kwargs : List (String × Value)) (href : ref < h.dicts.length) :
    ((construct_params_heap opid h ref req kwargs).1).get ref = h.get ref ∧
    ((construct_request_heap opid http_method url h ref kwargs).1).get ref =
      h.get ref := by
  refine ⟨construct_params_heap_frame opid h ref req kwargs href, ?_⟩
  unfold construct_request_heap
  exact construct_params_heap_frame opid h ref _ _ href

/-- C10 witness: the frame property evaluated at a concrete heap, both for a
consumed known kwarg and through `construct_request`. -/
theorem C10_witness :
    ((construct_params_heap "get_pet" exampleHeap 0 emptyRequest
      [("petId", Value.num 7)]).1).get 0 = exampleHeap.get 0 ∧
    ((construct_request_heap "get_pet" "get" "http://petstore/pet" exampleHeap
      0 [("petId", Value.num 7)]).1).get 0 = exampleHeap.get 0 :=
  C10_self_params_unchanged "get_pet" "get" "http://petstore/pet" exampleHeap
    0 emptyRequest [("petId", Value.num 7)] (by decide)

end Bravado
